import Mathlib

/-!
# Verification of the CycloneDX validation engine and configuration resolver

Shallow embedding of two modules of the `cyclonedx-rust-cargo` repository:

* `cyclonedx-bom/src/validation.rs` — the validation framework: path
  contexts, failure aggregation, and the `Validate` capability.
* `cargo-cyclonedx/src/toml.rs` — the configuration resolver: promotion of
  a parsed TOML fragment into a typed `SbomConfig`.

Rust `Vec` becomes `List`, `Option` becomes `Option`, `Result` becomes
`Except`, `String` becomes `String`. The external collaborators from the
`config` module (`SbomConfig`, `CustomPrefix`, `Prefix`, `CdxExtension`,
`PrefixError`) are not part of this slice; they are modelled from the
specification, and the external prefix-validity check (`CustomPrefix::new`)
is a parameter of every definition that calls it.
-/

/-! ## validation.rs -/

/-- `ValidationPathComponent` from validation.rs: one step of the
breadcrumb trail — a struct field, a zero-based array index, or an enum
variant name. -/
inductive ValidationPathComponent where
| Struct (struct_name : String) (field_name : String)
| Array (index : Nat)
| EnumVariant (variant_name : String)
deriving DecidableEq, Repr

/-- `ValidationContext` from validation.rs: a tuple struct wrapping a
`Vec<ValidationPathComponent>`; the Rust field `.0` is named
`components` here. -/
structure ValidationContext where
components : List ValidationPathComponent
deriving DecidableEq, Repr

/-- The `Default` derive on `ValidationContext`: an empty component
vector. -/
def ValidationContext.default : ValidationContext := ⟨[]⟩

/-- `ValidationContext::extend_context`: clone the component vector and
extend it with the given components (an append, the receiver untouched). -/
def ValidationContext.extend_context (c : ValidationContext)
    (components : List ValidationPathComponent) : ValidationContext :=
⟨c.components ++ components⟩

/-- `ValidationContext::extend_context_with_struct_field`: extend with a
single `Struct` component built from the two names. -/
def ValidationContext.extend_context_with_struct_field (c : ValidationContext)
    (struct_name field_name : String) : ValidationContext :=
c.extend_context [ValidationPathComponent.Struct struct_name field_name]

/-- `FailureReason` from validation.rs: a message together with the
context at the failure site. -/
structure FailureReason where
message : String
context : ValidationContext
deriving DecidableEq, Repr

/-- `ValidationResult` from validation.rs: `Passed`, or `Failed` carrying
its vector of reasons. -/
inductive ValidationResult where
| Passed
| Failed (reasons : List FailureReason)
deriving DecidableEq, Repr

/-- `ValidationResult::merge`: `Passed` passes the other operand through;
two `Failed` append the right operand's reasons after the left's
(`Vec::append`). -/
def ValidationResult.merge : ValidationResult → ValidationResult → ValidationResult
| .Passed, .Passed => .Passed
| .Passed, .Failed reasons => .Failed reasons
| .Failed reasons, .Passed => .Failed reasons
| .Failed left_reasons, .Failed right_reasons => .Failed (left_reasons ++ right_reasons)

/-- The `Default` impl on `ValidationResult`: `Passed`. -/
def ValidationResult.default : ValidationResult := .Passed

/-- Whether a `ValidationResult` is the `Failed` variant (used to state
properties of the merge algebra). -/
def ValidationResult.is_failed : ValidationResult → Bool
| .Passed => false
| .Failed _ => true

/-- Whether a `ValidationResult` is `Passed` or `Failed` with a non-empty
reason list — the representation invariant of §3 of the spec. -/
def ValidationResult.reasons_nonempty : ValidationResult → Bool
| .Passed => true
| .Failed reasons => !reasons.isEmpty

/-- `ValidationError` from validation.rs; `regex::Error` is external and
modelled as its message string. -/
inductive ValidationError where
| InvalidRegularExpressionError (err : String)
deriving DecidableEq, Repr

/-- The `Validate` trait from validation.rs: the capability record of a
validatable type is its required method `validate_with_context`. -/
structure Validate (α : Type) where
validate_with_context : α → ValidationContext → Except ValidationError ValidationResult

/-- The provided default method `Validate::validate`: validate with the
default (empty) context. -/
def Validate.validate {α : Type} (inst : Validate α) (v : α) :
    Except ValidationError ValidationResult :=
inst.validate_with_context v ValidationContext.default

/-! ## The external `config` and `format` collaborators

The crate modules `cargo-cyclonedx/src/config.rs` and `format.rs` are not
part of this slice; the shapes below are modelled from the specification
(§3, §4.2, §6) and from how toml.rs constructs and consumes them. -/

/-- Modelled from the spec: `crate::format::Format`, the output format
selector, a string-enumerated value ("json" in the spec's scenario; the
crate also emits XML documents). -/
inductive Format where
| Json
| Xml
deriving DecidableEq, Repr

/-- Modelled from the spec: `config::IncludedDependencies`, the
dependency-inclusion mode with the two recognized literals; toml.rs maps
its own variants onto these one-for-one. -/
inductive config.IncludedDependencies where
| TopLevelDependencies
| AllDependencies
deriving DecidableEq, Repr

/-- Modelled from the spec: `config::CdxExtension`, the explicit
"included"/"not included" resolution of the boolean extension flag. -/
inductive config.CdxExtension where
| Included
| NotIncluded
deriving DecidableEq, Repr

/-- Modelled from the spec: `CdxExtension::default()`, the domain default
used when the flag is absent. The spec fixes only that a single domain
default exists, not its value; this development fixes `NotIncluded`, and
no claim depends on which value it is. -/
def config.CdxExtension.default : config.CdxExtension := .NotIncluded

/-- Modelled from the spec: `config::Pattern`, the fixed naming scheme;
toml.rs maps its own `Pattern` variants onto these one-for-one. -/
inductive config.Pattern where
| Bom
| Package
deriving DecidableEq, Repr

/-- Modelled from the spec: `PrefixError`, the failure reported by the
external prefix-validity collaborator, carried as its message. -/
structure PrefixError where
message : String
deriving DecidableEq, Repr

/-- Modelled from the spec: `config::CustomPrefix`, a validated custom
naming string produced by the external collaborator. -/
structure CustomPrefix where
value : String
deriving DecidableEq, Repr

/-- Modelled from the spec: `config::Prefix`, the output-shaping choice —
either a fixed naming pattern or a validated custom naming string.
(The Rust name is `Prefix`.) -/
inductive config.Prefix where
| Pattern (p : config.Pattern)
| Custom (c : CustomPrefix)
deriving DecidableEq, Repr

/-- Modelled from the spec: `Prefix::default()`, substituted when neither
a pattern nor a custom value was supplied ("no customization"). The spec
fixes only that a default exists; this development fixes the default
pattern, and no claim depends on which value it is. -/
def config.Prefix.default : config.Prefix := .Pattern .Bom

/-- Modelled from the spec: `config::OutputOptions`, the resolved
output-shaping record consumed by the pipeline. The Rust fields are
`cdx_extension` and `prefix`; the latter is named `prefix_value` here. -/
structure config.OutputOptions where
cdx_extension : config.CdxExtension
prefix_value : config.Prefix
deriving DecidableEq, Repr

/-- Modelled from the spec: `config::SbomConfig`, the resolved
configuration object, with the three independent optional controls that
`TryFrom<TomlConfig>` populates. -/
structure SbomConfig where
format : Option Format
included_dependencies : Option config.IncludedDependencies
output_options : Option config.OutputOptions
deriving DecidableEq, Repr

/-- Modelled from the spec: `SbomConfig::empty_config()`, the
empty/default configuration — no control set. -/
def SbomConfig.empty_config : SbomConfig := ⟨none, none, none⟩

/-! ## toml.rs -/

/-- `IncludedDependencies` from toml.rs (the intermediate, deserialized
form). -/
inductive IncludedDependencies where
| TopLevelDependencies
| AllDependencies
deriving DecidableEq, Repr

/-- The `Default` impl on toml.rs's `IncludedDependencies`. -/
def IncludedDependencies.default : IncludedDependencies := .TopLevelDependencies

/-- `FromStr` for toml.rs's `IncludedDependencies`. -/
def IncludedDependencies.from_str : String → Except String IncludedDependencies
| "all" => .ok .AllDependencies
| "top-level" => .ok .TopLevelDependencies
| s => .error ("Expected all or top-level, got `" ++ s ++ "`")

/-- `From<IncludedDependencies> for config::IncludedDependencies`. -/
def IncludedDependencies.into : IncludedDependencies → config.IncludedDependencies
| .TopLevelDependencies => .TopLevelDependencies
| .AllDependencies => .AllDependencies

/-- `Pattern` from toml.rs (the intermediate, deserialized form). -/
inductive Pattern where
| Bom
| Package
deriving DecidableEq, Repr

/-- The `Default` impl on toml.rs's `Pattern`. -/
def Pattern.default : Pattern := .Bom

/-- `FromStr` for toml.rs's `Pattern`. -/
def Pattern.from_str : String → Except String Pattern
| "bom" => .ok .Bom
| "package" => .ok .Package
| s => .error ("Expected bom or package, got `" ++ s ++ "`")

/-- `From<Pattern> for config::Pattern`. -/
def Pattern.into : Pattern → config.Pattern
| .Bom => .Bom
| .Package => .Package

/-- `OutputOptions` from toml.rs: the deserialized output-options record
with three optional fields. The Rust fields are `cdx_extension` (TOML key
`cdx`), `pattern` and `prefix`; the last is named `prefix_str` here. -/
structure OutputOptions where
cdx_extension : Option Bool
pattern : Option Pattern
prefix_str : Option String
deriving DecidableEq, Repr

/-- `ConfigError` from toml.rs, the closed error taxonomy; the
`CustomPrefixError` variant wraps a `PrefixError` (`#[from]`). -/
inductive ConfigError where
| TomlError (message : String)
| ValidationError (message : String)
| CustomPrefixError (e : PrefixError)
deriving DecidableEq, Repr

/-- The first `match` of `TryFrom<OutputOptions> for config::OutputOptions`
in toml.rs, factored into a named function: `Some(true)` is `Included`,
`Some(false)` is `NotIncluded`, `None` is the domain default. -/
def OutputOptions.resolve_cdx : Option Bool → config.CdxExtension
| some true => .Included
| some false => .NotIncluded
| none => config.CdxExtension.default

/-- `TryFrom<OutputOptions> for config::OutputOptions` from toml.rs.
`custom_prefix_new` is the external collaborator `CustomPrefix::new`; its
`PrefixError` is converted by `?` through `#[from]` into
`ConfigError::CustomPrefixError`. The match arms, their order, the error
message and the final `unwrap_or_default` mirror the Rust source; the
first match of the source is the function `resolve_cdx` above. -/
def OutputOptions.try_from
    (custom_prefix_new : String → Except PrefixError CustomPrefix)
    (value : OutputOptions) : Except ConfigError config.OutputOptions :=
let cdx_extension : config.CdxExtension := OutputOptions.resolve_cdx value.cdx_extension
let prefix_choice : Except ConfigError (Option config.Prefix) :=
  match value.pattern, value.prefix_str with
  | some pattern, none => .ok (some (config.Prefix.Pattern pattern.into))
  | none, some s =>
    match custom_prefix_new s with
    | .ok cp => .ok (some (config.Prefix.Custom cp))
    | .error e => .error (ConfigError.CustomPrefixError e)
  | none, none => .ok none
  | _, _ => .error (ConfigError.ValidationError
      "OutputOptions can contain either prefix or pattern, got both")
match prefix_choice with
| .error e => .error e
| .ok p => .ok ⟨cdx_extension, p.getD config.Prefix.default⟩

/-- `TomlConfig` from toml.rs: the recognized inner section with its
three independent optional controls. -/
structure TomlConfig where
format : Option Format
included_dependencies : Option IncludedDependencies
output_options : Option OutputOptions
deriving DecidableEq, Repr

/-- `TomlConfig::empty_config()`. -/
def TomlConfig.empty_config : TomlConfig := ⟨none, none, none⟩

/-- `TryFrom<TomlConfig> for SbomConfig` from toml.rs: resolve the
output options (propagating their error), map the dependency mode, pass
the format through. -/
def TomlConfig.try_from
    (custom_prefix_new : String → Except PrefixError CustomPrefix)
    (value : TomlConfig) : Except ConfigError SbomConfig :=
let output_options : Except ConfigError (Option config.OutputOptions) :=
  match value.output_options with
  | some options => (options.try_from custom_prefix_new).map some
  | none => .ok none
match output_options with
| .error e => .error e
| .ok oo => .ok ⟨value.format, value.included_dependencies.map IncludedDependencies.into, oo⟩

/-- `ConfigWrapper` from toml.rs: the top-level wrapper whose only
recognized key is the optional `cyclonedx` section (serde discards every
other top-level section before this type is built). -/
structure ConfigWrapper where
cyclonedx : Option TomlConfig
deriving DecidableEq, Repr

/-- `TryFrom<ConfigWrapper> for SbomConfig` from toml.rs: resolve the
inner section when present, otherwise the empty configuration. -/
def ConfigWrapper.try_from
    (custom_prefix_new : String → Except PrefixError CustomPrefix)
    (value : ConfigWrapper) : Except ConfigError SbomConfig :=
match value.cyclonedx with
| some cyclonedx => cyclonedx.try_from custom_prefix_new
| none => .ok SbomConfig.empty_config

/-- `config_from_toml` from toml.rs. The TOML value type and its serde
deserialization into `ConfigWrapper` are external; they appear as the
type `TomlValue` and the function `deserialize`, whose error is already
the formatted message string that the Rust code folds into
`ConfigError::TomlError`. -/
def config_from_toml {TomlValue : Type}
    (deserialize : TomlValue → Except String ConfigWrapper)
    (custom_prefix_new : String → Except PrefixError CustomPrefix)
    (value : Option TomlValue) : Except ConfigError SbomConfig :=
match value with
| some v =>
  match deserialize v with
  | .error e => .error (ConfigError.TomlError e)
  | .ok wrapper => wrapper.try_from custom_prefix_new
| none => .ok SbomConfig.empty_config

/-! ## Theorems: the validation engine -/

/-- C1: `ValidationResult.merge` has `Passed` as a two-sided identity —
`merge(Passed, a) = a` and `merge(a, Passed) = a` for every `a` — and the
merge of two `Failed` results is `Failed` whose reason list is exactly the
left operand's reasons followed by the right operand's, with no
deduplication and no reordering. -/
theorem merge_passed_identity_and_failed_concat :
    (∀ a : ValidationResult,
      ValidationResult.merge .Passed a = a ∧ ValidationResult.merge a .Passed = a) ∧
    (∀ r1 r2 : List FailureReason,
      ValidationResult.merge (.Failed r1) (.Failed r2) = .Failed (r1 ++ r2)) := by
  constructor
  · intro a
    cases a <;> exact ⟨rfl, rfl⟩
  · intro r1 r2
    rfl

/-- C3: `ValidationResult.merge` is associative, and it is commutative in
effect: swapping the operands never changes whether the merged result is
`Failed`, only the order in which the reasons were collected. -/
theorem merge_assoc_and_failed_symm :
    (∀ a b c : ValidationResult, (a.merge b).merge c = a.merge (b.merge c)) ∧
    (∀ a b : ValidationResult, (a.merge b).is_failed = (b.merge a).is_failed) := by
  constructor
  · intro a b c
    cases a <;> cases b <;> cases c <;> simp [ValidationResult.merge]
  · intro a b
    cases a <;> cases b <;> rfl

/-- C4: context extension is pure and append-only. `extend_context`
returns a context whose component sequence is exactly the receiver's
components followed by the given components, and
`extend_context_with_struct_field` appends exactly one `Struct` component
carrying the given struct and field names. The receiver is read through a
shared reference and cloned in the source, and both operations are pure
functions here, so the original context is unchanged by construction. -/
theorem extend_context_appends :
    (∀ (c : ValidationContext) (cs : List ValidationPathComponent),
      (c.extend_context cs).components = c.components ++ cs) ∧
    (∀ (c : ValidationContext) (s f : String),
      c.extend_context_with_struct_field s f =
        ⟨c.components ++ [ValidationPathComponent.Struct s f]⟩) :=
  ⟨fun _ _ => rfl, fun _ _ _ => rfl⟩

/-- C8: the convenience entry point `Validate::validate` equals
`validate_with_context` at the default context, for every type carrying
the capability and every value of it (the provided default method), and
the default context's component sequence is empty. -/
theorem validate_eq_validate_with_default_context :
    (∀ (α : Type) (inst : Validate α) (v : α),
      inst.validate v = inst.validate_with_context v ValidationContext.default) ∧
    ValidationContext.default.components = [] :=
  ⟨fun _ _ _ => rfl, rfl⟩

/-- C9: the invariant "a `ValidationResult` is `Passed` or `Failed` with a
non-empty reason list" is preserved by `merge`: if both operands satisfy
it, so does their merge. (The representation itself does not forbid
`Failed []`, so the invariant is stated over the operation.) -/
theorem merge_preserves_nonempty_reasons (a b : ValidationResult)
    (ha : a.reasons_nonempty = true) (hb : b.reasons_nonempty = true) :
    (a.merge b).reasons_nonempty = true := by
  cases a <;> cases b <;>
    simp_all [ValidationResult.merge, ValidationResult.reasons_nonempty]

/-- Witness for C9 at two concrete one-reason failures. -/
theorem merge_preserves_nonempty_reasons_witness :
    (ValidationResult.merge
      (.Failed [⟨"first message", ValidationContext.default⟩])
      (.Failed [⟨"second message", ValidationContext.default⟩])).reasons_nonempty = true :=
  merge_preserves_nonempty_reasons
    (.Failed [⟨"first message", ValidationContext.default⟩])
    (.Failed [⟨"second message", ValidationContext.default⟩]) rfl rfl

/-! ## Theorems: the configuration resolver -/

/-- C5: resolving an absent configuration fragment always yields the
default configuration with no error, whatever the deserializer and the
prefix-validity collaborator are: `config_from_toml` at `none` is
`Ok(SbomConfig::empty_config())` unconditionally. -/
theorem config_from_toml_none_default {TomlValue : Type}
    (deserialize : TomlValue → Except String ConfigWrapper)
    (custom_prefix_new : String → Except PrefixError CustomPrefix) :
    config_from_toml deserialize custom_prefix_new none = .ok SbomConfig.empty_config :=
  rfl

/-- C6: every successfully deserialized `ConfigWrapper` whose recognized
`cyclonedx` section is absent (the deserialized form of an input with only
unrecognized top-level sections) resolves to the default configuration,
not an error. -/
theorem sbom_config_try_from_no_cyclonedx
    (custom_prefix_new : String → Except PrefixError CustomPrefix)
    (w : ConfigWrapper) (h : w.cyclonedx = none) :
    w.try_from custom_prefix_new = .ok SbomConfig.empty_config := by
  obtain ⟨cyclonedx⟩ := w
  subst h
  rfl

/-- Witness for C6: the wrapper with no `cyclonedx` section resolves to
the empty configuration. -/
theorem sbom_config_try_from_no_cyclonedx_witness :
    ConfigWrapper.try_from (fun s => .ok ⟨s⟩) ⟨none⟩ = .ok SbomConfig.empty_config :=
  sbom_config_try_from_no_cyclonedx (fun s => .ok ⟨s⟩) ⟨none⟩ rfl

/-- C2: resolving `OutputOptions` enforces the mutual-exclusion rule, for
every prefix-validity collaborator `k` and every field content: both
fields present yield exactly the `ValidationError`; a pattern alone
succeeds with the resolved output shaping set to that pattern; a custom
value alone is passed to `k`, whose failure comes back wrapped as
`CustomPrefixError` and whose success selects the custom-prefix mode. -/
theorem output_options_mutual_exclusion
    (k : String → Except PrefixError CustomPrefix)
    (cdx : Option Bool) (pat : Pattern) (s : String) :
    (OutputOptions.try_from k ⟨cdx, some pat, some s⟩ =
      .error (ConfigError.ValidationError
        "OutputOptions can contain either prefix or pattern, got both")) ∧
    (∃ ext, OutputOptions.try_from k ⟨cdx, some pat, none⟩ =
      .ok ⟨ext, config.Prefix.Pattern pat.into⟩) ∧
    (∀ e, k s = .error e →
      OutputOptions.try_from k ⟨cdx, none, some s⟩ =
        .error (ConfigError.CustomPrefixError e)) ∧
    (∀ cp, k s = .ok cp →
      ∃ ext, OutputOptions.try_from k ⟨cdx, none, some s⟩ =
        .ok ⟨ext, config.Prefix.Custom cp⟩) := by
  refine ⟨rfl, ⟨OutputOptions.resolve_cdx cdx, rfl⟩, ?_, ?_⟩
  · intro e he
    simp [OutputOptions.try_from, he]
  · intro cp hcp
    refine ⟨OutputOptions.resolve_cdx cdx, ?_⟩
    simp [OutputOptions.try_from, hcp]

/-- Helper for C7: a successful resolution's extension field is the
pointwise image of the input flag. -/
theorem try_from_ok_cdx (k : String → Except PrefixError CustomPrefix)
    (v : OutputOptions) (out : config.OutputOptions)
    (h : OutputOptions.try_from k v = Except.ok out) :
    out.cdx_extension = OutputOptions.resolve_cdx v.cdx_extension := by
  obtain ⟨cdx, pat0, pre0⟩ := v
  rcases pat0 with _ | p <;> rcases pre0 with _ | s
  · obtain rfl : (⟨_, _⟩ : config.OutputOptions) = out := Except.ok.inj h
    rfl
  · rcases hk : k s with e | cp <;>
      simp only [OutputOptions.try_from, hk] at h
    · exact absurd h (by simp)
    · obtain rfl := (Except.ok.inj h)
      rfl
  · obtain rfl : (⟨_, _⟩ : config.OutputOptions) = out := Except.ok.inj h
    rfl
  · exact absurd h (by simp [OutputOptions.try_from])

/-- C7: the boolean extension flag resolves pointwise. Whenever resolution
succeeds, `cdx = Some(true)` gives `Included`, `Some(false)` gives
`NotIncluded`, and `None` gives the domain default; and the input with
only `pattern = Bom` and `cdx = true` resolves to extension `Included`
with the `Bom` pattern as output shaping. -/
theorem cdx_extension_pointwise
    (k : String → Except PrefixError CustomPrefix)
    (v : OutputOptions) (out : config.OutputOptions)
    (h : v.try_from k = Except.ok out) :
    (v.cdx_extension = some true → out.cdx_extension = config.CdxExtension.Included) ∧
    (v.cdx_extension = some false → out.cdx_extension = config.CdxExtension.NotIncluded) ∧
    (v.cdx_extension = none → out.cdx_extension = config.CdxExtension.default) ∧
    OutputOptions.try_from k ⟨some true, some .Bom, none⟩ =
      .ok ⟨config.CdxExtension.Included, config.Prefix.Pattern config.Pattern.Bom⟩ := by
  have hx := try_from_ok_cdx k v out h
  refine ⟨?_, ?_, ?_, rfl⟩ <;> intro hc <;> rw [hc] at hx <;> exact hx.trans rfl

/-- Witness for C7 at the concrete input `cdx = Some(true)`,
`pattern = Some(Bom)`, `prefix = None`, with a collaborator that accepts
every string. -/
theorem cdx_extension_pointwise_witness :
    (⟨config.CdxExtension.Included,
      config.Prefix.Pattern config.Pattern.Bom⟩ : config.OutputOptions).cdx_extension =
      config.CdxExtension.Included :=
  (cdx_extension_pointwise (fun s => .ok ⟨s⟩)
    ⟨some true, some .Bom, none⟩
    ⟨config.CdxExtension.Included, config.Prefix.Pattern config.Pattern.Bom⟩ rfl).1 rfl

/-- C10: when neither a pattern nor a custom value is supplied, resolution
succeeds and the resolved output-shaping field is not left unset: it is
the default `Prefix` value, substituted by `unwrap_or_default`. -/
theorem try_from_none_none_default_prefix
    (k : String → Except PrefixError CustomPrefix) (cdx : Option Bool) :
    ∃ out, OutputOptions.try_from k ⟨cdx, none, none⟩ = .ok out ∧
      out.prefix_value = config.Prefix.default :=
  ⟨_, rfl, rfl⟩
